import Mathlib

/-!
Verification of two components of the pomerium repository:
(a) the storage configuration builder (`internal/databroker/config.go`), and
(b) the reconfigurable metrics endpoint (`internal/config/metrics_manager.go`).
Go code is shallowly embedded: mutating option functions become pure
state-to-state functions, the metrics manager becomes a step function over an
explicit state record, and external failable calls (hostname lookup, handler
construction) become an explicit environment value per step.
-/

namespace Databroker

/-- Modelled from the spec: the required fixed key size for the shared secret
(`cryptutil.DefaultKeySize`, which lives outside the provided sources). -/
def DefaultKeySize : Nat := 32

/-- `DefaultDeletePermanentlyAfter = time.Hour`, as nanoseconds (Go
`time.Duration` is a signed 64-bit count of nanoseconds). -/
def DefaultDeletePermanentlyAfter : Int := 3600000000000

/-- `DefaultStorageType = "memory"`. -/
def DefaultStorageType : String := "memory"

/-- `DefaultGetAllPageSize = 50`. -/
def DefaultGetAllPageSize : Int := 50

/-- Decode one base64 symbol of the standard alphabet, as Go's
`encoding/base64` does for `StdEncoding`. -/
def base64Index (c : Char) : Option Nat :=
  if 65 ≤ c.toNat ∧ c.toNat ≤ 90 then some (c.toNat - 65)
  else if 97 ≤ c.toNat ∧ c.toNat ≤ 122 then some (c.toNat - 97 + 26)
  else if 48 ≤ c.toNat ∧ c.toNat ≤ 57 then some (c.toNat - 48 + 52)
  else if c = '+' then some 62
  else if c = '/' then some 63
  else none

/-- Decode a base64 character stream in quanta of four symbols, with `=`
padding allowed only in the final quantum, as Go's
`base64.StdEncoding.DecodeString` does.  Bytes are modelled as `Nat` values
below 256. -/
def decodeBase64Chars : List Char → Option (List Nat)
  | [] => some []
  | c1 :: c2 :: c3 :: c4 :: rest => do
      let a ← base64Index c1
      let b ← base64Index c2
      if c3 = '=' then
        if c4 = '=' ∧ rest = [] then
          some [a * 4 + b / 16]
        else none
      else do
        let x ← base64Index c3
        if c4 = '=' then
          if rest = [] then some [a * 4 + b / 16, b % 16 * 16 + x / 4]
          else none
        else do
          let y ← base64Index c4
          let tail ← decodeBase64Chars rest
          some ((a * 4 + b / 16) :: (b % 16 * 16 + x / 4) :: (x % 4 * 64 + y) :: tail)
  | _ => none

/-- Go's `base64.StdEncoding.DecodeString`: carriage returns and newlines are
ignored, everything else must form valid padded quanta. -/
def decodeString (s : String) : Option (List Nat) :=
  decodeBase64Chars (s.data.filter fun c => c ≠ '\r' ∧ c ≠ '\n')

/-- An opaque stand-in for Go's `*tls.Certificate` (external type; only its
identity matters to this component). -/
structure TLSCertificate where
  id : Nat
deriving DecidableEq, Repr

/-- The `serverConfig` struct of `internal/databroker/config.go`.  The Go
pointer field `storageCertificate *tls.Certificate` and the nilable byte slice
`secret []byte` are modelled with `Option`. -/
structure serverConfig where
  installationID : String
  deletePermanentlyAfter : Int
  secret : Option (List Nat)
  storageType : String
  storageConnectionString : String
  storageCAFile : String
  storageCertSkipVerify : Bool
  storageCertificate : Option TLSCertificate
  getAllPageSize : Int
deriving DecidableEq, Repr

/-- The zero value produced by Go's `new(serverConfig)`. -/
def zeroServerConfig : serverConfig :=
  { installationID := ""
    deletePermanentlyAfter := 0
    secret := none
    storageType := ""
    storageConnectionString := ""
    storageCAFile := ""
    storageCertSkipVerify := false
    storageCertificate := none
    getAllPageSize := 0 }

/-- A `ServerOption` mutates the accumulator; embedded as a pure function. -/
def ServerOption := serverConfig → serverConfig

/-- The field names of `serverConfig`, used to state frame and commutation
properties of the options. -/
inductive Field where
  | installationID
  | deletePermanentlyAfter
  | secret
  | storageType
  | storageConnectionString
  | storageCAFile
  | storageCertSkipVerify
  | storageCertificate
  | getAllPageSize
deriving DecidableEq, Repr

/-- `WithDeletePermanentlyAfter` sets the `deletePermanentlyAfter` duration. -/
def WithDeletePermanentlyAfter (dur : Int) : ServerOption := fun cfg =>
  { cfg with deletePermanentlyAfter := dur }

/-- `WithGetAllPageSize` sets the page size for GetAll calls. -/
def WithGetAllPageSize (pageSize : Int) : ServerOption := fun cfg =>
  { cfg with getAllPageSize := pageSize }

/-- `WithInstallationID` sets the installation id in the config. -/
def WithInstallationID (installationID : String) : ServerOption := fun cfg =>
  { cfg with installationID := installationID }

/-- `WithSharedKey` sets the secret in the config: the base64-decoded bytes
are stored only when decoding succeeds and yields exactly `DefaultKeySize`
bytes; otherwise the error is logged and the config is returned unchanged. -/
def WithSharedKey (sharedKey : String) : ServerOption := fun cfg =>
  match decodeString sharedKey with
  | none => cfg
  | some key =>
      if key.length = DefaultKeySize then { cfg with secret := some key }
      else cfg

/-- `WithStorageType` sets the storage type. -/
def WithStorageType (typ : String) : ServerOption := fun cfg =>
  { cfg with storageType := typ }

/-- `WithStorageConnectionString` sets the DSN for storage. -/
def WithStorageConnectionString (connStr : String) : ServerOption := fun cfg =>
  { cfg with storageConnectionString := connStr }

/-- `WithStorageCAFile` sets the CA file in the config. -/
def WithStorageCAFile (filePath : String) : ServerOption := fun cfg =>
  { cfg with storageCAFile := filePath }

/-- `WithStorageCertSkipVerify` sets the `storageCertSkipVerify` flag. -/
def WithStorageCertSkipVerify (skip : Bool) : ServerOption := fun cfg =>
  { cfg with storageCertSkipVerify := skip }

/-- `WithStorageCertificate` sets the `storageCertificate` in the config. -/
def WithStorageCertificate (certificate : Option TLSCertificate) : ServerOption := fun cfg =>
  { cfg with storageCertificate := certificate }

/-- First-order syntax for the option constructors exported by the file, so
that "every ordered sequence of option functions" quantifies over sequences
built from the actual API. -/
inductive ServerOptionSpec where
  | withDeletePermanentlyAfter (dur : Int)
  | withGetAllPageSize (pageSize : Int)
  | withInstallationID (installationID : String)
  | withSharedKey (sharedKey : String)
  | withStorageType (typ : String)
  | withStorageConnectionString (connStr : String)
  | withStorageCAFile (filePath : String)
  | withStorageCertSkipVerify (skip : Bool)
  | withStorageCertificate (certificate : Option TLSCertificate)
deriving DecidableEq, Repr

/-- Interpret the option syntax by the corresponding option function. -/
def applyOption : ServerOptionSpec → serverConfig → serverConfig
  | .withDeletePermanentlyAfter dur, cfg => WithDeletePermanentlyAfter dur cfg
  | .withGetAllPageSize pageSize, cfg => WithGetAllPageSize pageSize cfg
  | .withInstallationID installationID, cfg => WithInstallationID installationID cfg
  | .withSharedKey sharedKey, cfg => WithSharedKey sharedKey cfg
  | .withStorageType typ, cfg => WithStorageType typ cfg
  | .withStorageConnectionString connStr, cfg => WithStorageConnectionString connStr cfg
  | .withStorageCAFile filePath, cfg => WithStorageCAFile filePath cfg
  | .withStorageCertSkipVerify skip, cfg => WithStorageCertSkipVerify skip cfg
  | .withStorageCertificate certificate, cfg => WithStorageCertificate certificate cfg

/-- `newServerConfig`: apply the three defaults to the zero value, then the
caller-supplied options in order. -/
def newServerConfig (options : List ServerOptionSpec) : serverConfig :=
  options.foldl (fun cfg o => applyOption o cfg)
    (WithGetAllPageSize DefaultGetAllPageSize
      (WithStorageType DefaultStorageType
        (WithDeletePermanentlyAfter DefaultDeletePermanentlyAfter zeroServerConfig)))

/-- The (single) field written by each option constructor. -/
def fieldOf : ServerOptionSpec → Field
  | .withDeletePermanentlyAfter _ => .deletePermanentlyAfter
  | .withGetAllPageSize _ => .getAllPageSize
  | .withInstallationID _ => .installationID
  | .withSharedKey _ => .secret
  | .withStorageType _ => .storageType
  | .withStorageConnectionString _ => .storageConnectionString
  | .withStorageCAFile _ => .storageCAFile
  | .withStorageCertSkipVerify _ => .storageCertSkipVerify
  | .withStorageCertificate _ => .storageCertificate

/-- Whether two configurations agree on a given field. -/
def agreeOn : Field → serverConfig → serverConfig → Bool
  | .installationID, c, c' => decide (c.installationID = c'.installationID)
  | .deletePermanentlyAfter, c, c' => decide (c.deletePermanentlyAfter = c'.deletePermanentlyAfter)
  | .secret, c, c' => decide (c.secret = c'.secret)
  | .storageType, c, c' => decide (c.storageType = c'.storageType)
  | .storageConnectionString, c, c' => decide (c.storageConnectionString = c'.storageConnectionString)
  | .storageCAFile, c, c' => decide (c.storageCAFile = c'.storageCAFile)
  | .storageCertSkipVerify, c, c' => decide (c.storageCertSkipVerify = c'.storageCertSkipVerify)
  | .storageCertificate, c, c' => decide (c.storageCertificate = c'.storageCertificate)
  | .getAllPageSize, c, c' => decide (c.getAllPageSize = c'.getAllPageSize)

/-- The unconditional setters: every option except `WithSharedKey`, which
validates its input. -/
def Unconditional : ServerOptionSpec → Bool
  | .withSharedKey _ => false
  | _ => true

/-- The condition under which an option keeps the retention duration and page
size positive: setters of those two fields must supply a positive value. -/
def optionPositive : ServerOptionSpec → Prop
  | .withDeletePermanentlyAfter dur => 0 < dur
  | .withGetAllPageSize pageSize => 0 < pageSize
  | _ => True

/-- The secret is absent or has exactly the required key length. -/
def SecretOK (cfg : serverConfig) : Prop :=
  cfg.secret = none ∨ ∃ k, cfg.secret = some k ∧ k.length = DefaultKeySize

end Databroker

namespace Metrics

/-- Modelled from the spec: the upstream admin endpoint
(`config.EnvoyAdminURL`, defined outside the provided sources) passed to the
exposition-handler constructor. -/
def EnvoyAdminURL : String := "envoy-admin-url"

/-- Modelled from the spec: derive a service name from the configuration's
service list (`telemetry.ServiceName`, defined outside the provided sources);
the spec fixes no more than that it is a function of the service list. -/
def telemetryServiceName (services : String) : String := services

/-- Modelled from the spec: `cfg.Options.GetMetricsBasicAuth` (defined outside
the provided sources) reports a credential exactly when the basic-auth
string is non-empty. -/
def getMetricsBasicAuth (basicAuth : String) : Option String :=
  if basicAuth = "" then none else some basicAuth

/-- The HTTP handlers this component can hold: the Prometheus exposition
handler built from the admin URL and installation id, optionally wrapped by
the basic-auth middleware. -/
inductive Handler where
  | prometheus (envoyAdminURL : String) (installationID : String)
  | requireBasicAuth (credential : String) (inner : Handler)
deriving DecidableEq, Repr

/-- An incoming HTTP request (opaque; only its identity matters here). -/
structure Request where
  id : Nat
deriving DecidableEq, Repr

/-- The observable outcome of `ServeHTTP`: a not-found response, or delegation
of the request to the stored handler. -/
inductive HTTPResponse where
  | notFound
  | handled (h : Handler) (r : Request)
deriving DecidableEq, Repr

/-- The configuration fields read by the metrics manager
(`cfg.Options.Services`, `MetricsAddr`, `MetricsBasicAuth`,
`InstallationID`). -/
structure Config where
  services : String
  metricsAddr : String
  metricsBasicAuth : String
  installationID : String
deriving DecidableEq, Repr

/-- The mutable state of a `MetricsManager` (the `sync.RWMutex` serializes the
Go methods, so one step function per call models them). -/
structure MetricsManager where
  installationID : String
  serviceName : String
  addr : String
  basicAuth : String
  handler : Option Handler
deriving DecidableEq, Repr

/-- Outcomes of the two external failable calls made during one
`OnConfigChange`: `os.Hostname` (`none` = error, per the spec substituted by a
sentinel) and `metrics.PrometheusHandler` (modelled from the spec: handler
construction may fail, in which case the handler is left unset). -/
structure Env where
  hostname : Option String
  promHandlerOK : Bool
deriving DecidableEq, Repr

/-- The zero value `&MetricsManager{}` built by `NewMetricsManager`. -/
def initMgr : MetricsManager :=
  { installationID := "", serviceName := "", addr := "", basicAuth := "", handler := none }

/-- A build-info metric emission, tagged with service name and hostname. -/
structure BuildInfo where
  serviceName : String
  hostname : String
deriving DecidableEq, Repr

/-- The hostname used by `updateInfo`: the result of `os.Hostname`, or the
sentinel `__unknown__` when that call failed. -/
def hostnameOrUnknown (env : Env) : String :=
  match env.hostname with
  | some h => h
  | none => "__unknown__"

/-- `updateInfo`: if the derived service name equals the stored one, no-op;
otherwise resolve the hostname (substituting `__unknown__` on failure), emit
the build-info metric, and store the new service name.  Returns the new state
together with the metrics emitted by this call. -/
def updateInfo (env : Env) (cfg : Config) (mgr : MetricsManager) :
    MetricsManager × List BuildInfo :=
  if telemetryServiceName cfg.services = mgr.serviceName then (mgr, [])
  else
    ({ mgr with serviceName := telemetryServiceName cfg.services },
      [{ serviceName := telemetryServiceName cfg.services,
         hostname := hostnameOrUnknown env }])

/-- The state after `updateServer` stores the new triple and clears the
handler (the Go assignments `mgr.addr = …; mgr.basicAuth = …;
mgr.installationID = …; mgr.handler = nil`). -/
def storeTriple (cfg : Config) (mgr : MetricsManager) : MetricsManager :=
  { mgr with
    addr := cfg.metricsAddr
    basicAuth := cfg.metricsBasicAuth
    installationID := cfg.installationID
    handler := none }

/-- The handler `updateServer` builds on success: the Prometheus exposition
handler for the (freshly stored) installation id, wrapped in basic-auth
middleware when a credential is configured. -/
def builtHandler (cfg : Config) : Handler :=
  match getMetricsBasicAuth cfg.metricsBasicAuth with
  | some credential =>
      Handler.requireBasicAuth credential
        (Handler.prometheus EnvoyAdminURL cfg.installationID)
  | none => Handler.prometheus EnvoyAdminURL cfg.installationID

/-- `updateServer`: if the (addr, basicAuth, installationID) triple is
unchanged, no-op; otherwise store the new triple and clear the handler, then
(unless the address is empty or handler construction fails) install the built
handler.  After the assignments the Go code reads `mgr.addr` and
`mgr.installationID`, which then equal `cfg.metricsAddr` and
`cfg.installationID`. -/
def updateServer (env : Env) (cfg : Config) (mgr : MetricsManager) : MetricsManager :=
  if cfg.metricsAddr = mgr.addr ∧ cfg.metricsBasicAuth = mgr.basicAuth ∧
      cfg.installationID = mgr.installationID then
    mgr
  else if cfg.metricsAddr = "" then storeTriple cfg mgr
  else if env.promHandlerOK = false then storeTriple cfg mgr
  else { storeTriple cfg mgr with handler := some (builtHandler cfg) }

/-- `OnConfigChange` runs the identity update then the server update inside
the exclusive lock. -/
def OnConfigChange (env : Env) (cfg : Config) (mgr : MetricsManager) :
    MetricsManager × List BuildInfo :=
  let r := updateInfo env cfg mgr
  (updateServer env cfg r.1, r.2)

/-- `ServeHTTP`: not-found when no handler is stored, otherwise delegate to
the stored handler. -/
def ServeHTTP (mgr : MetricsManager) (r : Request) : HTTPResponse :=
  match mgr.handler with
  | none => HTTPResponse.notFound
  | some h => HTTPResponse.handled h r

/-- `Close` returns nil (`Option.none` models the nil Go `error`). -/
def Close (_mgr : MetricsManager) : Option String := none

/-- Run a sequence of `OnConfigChange` calls from the initial state. -/
def run (l : List (Env × Config)) : MetricsManager :=
  l.foldl (fun mgr ec => (OnConfigChange ec.1 ec.2 mgr).1) initMgr

/-- The states reachable by some sequence of `OnConfigChange` calls
(`ServeHTTP` and `Close` do not modify the state). -/
def Reachable (mgr : MetricsManager) : Prop :=
  ∃ l, run l = mgr

end Metrics

namespace Databroker

lemma withSharedKey_shape (s : String) :
    (∀ cfg, WithSharedKey s cfg = cfg) ∨
    ∃ k, k.length = DefaultKeySize ∧ ∀ cfg, WithSharedKey s cfg = { cfg with secret := some k } := by
  unfold WithSharedKey
  rcases hd : decodeString s with _ | k
  · exact Or.inl fun cfg => rfl
  · by_cases hl : k.length = DefaultKeySize
    · exact Or.inr ⟨k, hl, fun cfg => by simp [hl]⟩
    · exact Or.inl fun cfg => by simp [hl]

lemma applyOption_frame (o : ServerOptionSpec) (cfg : serverConfig) (f : Field)
    (h : fieldOf o ≠ f) : agreeOn f (applyOption o cfg) cfg = true := by
  cases o
  case withSharedKey s =>
    rcases withSharedKey_shape s with hs | ⟨k, _, hs⟩ <;>
      simp only [applyOption, hs] <;> cases f <;> simp_all [fieldOf, agreeOn]
  all_goals
    cases f <;>
      simp_all [applyOption, fieldOf, agreeOn, WithDeletePermanentlyAfter,
        WithGetAllPageSize, WithInstallationID, WithStorageType,
        WithStorageConnectionString, WithStorageCAFile,
        WithStorageCertSkipVerify, WithStorageCertificate]

lemma agreeOn_refl (f : Field) (c : serverConfig) : agreeOn f c c = true := by
  cases f <;> simp [agreeOn]

lemma agreeOn_trans (f : Field) (a b c : serverConfig)
    (h1 : agreeOn f a b = true) (h2 : agreeOn f b c = true) : agreeOn f a c = true := by
  cases f <;> simp_all [agreeOn]

lemma foldl_frame (l : List ServerOptionSpec) (f : Field) :
    ∀ cfg, (∀ o ∈ l, fieldOf o ≠ f) →
      agreeOn f (l.foldl (fun c o => applyOption o c) cfg) cfg = true := by
  induction l with
  | nil => exact fun cfg _ => agreeOn_refl f cfg
  | cons o t ih =>
      intro cfg h
      have ht := ih (applyOption o cfg) fun o' ho' => h o' (List.mem_cons_of_mem o ho')
      exact agreeOn_trans f _ _ _ ht (applyOption_frame o cfg f (h o (List.mem_cons_self o t)))

lemma setter_writes (o : ServerOptionSpec) (h : Unconditional o = true)
    (c c' : serverConfig) : agreeOn (fieldOf o) (applyOption o c) (applyOption o c') = true := by
  cases o <;> simp_all [applyOption, fieldOf, agreeOn, Unconditional,
    WithDeletePermanentlyAfter, WithGetAllPageSize, WithInstallationID,
    WithStorageType, WithStorageConnectionString, WithStorageCAFile,
    WithStorageCertSkipVerify, WithStorageCertificate]

/-- C5: `newServerConfig` with no options yields storage type "memory",
a delete-permanently-after duration of one hour (in nanoseconds), page size
50, and an unset secret. -/
theorem newServerConfig_defaults :
    (newServerConfig []).storageType = "memory" ∧
    (newServerConfig []).deletePermanentlyAfter = 3600000000000 ∧
    (newServerConfig []).getAllPageSize = 50 ∧
    (newServerConfig []).secret = none :=
  ⟨rfl, rfl, rfl, rfl⟩

/-- C2: `WithSharedKey` stores the decoded bytes exactly when the input is
valid base64 decoding to `DefaultKeySize` bytes; on a decode failure or a
wrong decoded length the configuration (in particular its secret) is returned
unchanged, and no error escapes the option. -/
theorem withSharedKey_sets_or_keeps (cfg : serverConfig) (s : String) :
    (∀ k, decodeString s = some k → k.length = DefaultKeySize →
      WithSharedKey s cfg = { cfg with secret := some k }) ∧
    (decodeString s = none → WithSharedKey s cfg = cfg) ∧
    (∀ k, decodeString s = some k → k.length ≠ DefaultKeySize →
      WithSharedKey s cfg = cfg) := by
  refine ⟨fun k hk hl => ?_, fun hk => ?_, fun k hk hl => ?_⟩
  · simp [WithSharedKey, hk, hl]
  · simp [WithSharedKey, hk]
  · simp [WithSharedKey, hk, hl]

/-- Witness for C2: a 32-zero-byte key is stored; a non-base64 input and a
wrong-length input leave the default (unset) secret unchanged. -/
theorem withSharedKey_sets_or_keeps_witness :
    WithSharedKey "AAAAAAAAAAAAAAAAAAAAAAAAAAAAAAAAAAAAAAAAAAA=" zeroServerConfig =
      { zeroServerConfig with secret := some (List.replicate 32 0) } ∧
    WithSharedKey "!" zeroServerConfig = zeroServerConfig ∧
    WithSharedKey "aGk=" zeroServerConfig = zeroServerConfig :=
  ⟨(withSharedKey_sets_or_keeps zeroServerConfig
      "AAAAAAAAAAAAAAAAAAAAAAAAAAAAAAAAAAAAAAAAAAA=").1
      (List.replicate 32 0) (by decide) (by decide),
    (withSharedKey_sets_or_keeps zeroServerConfig "!").2.1 (by decide),
    (withSharedKey_sets_or_keeps zeroServerConfig "aGk=").2.2
      [104, 105] (by decide) (by decide)⟩

end Databroker

namespace Databroker

lemma applyOption_secretOK (o : ServerOptionSpec) (cfg : serverConfig)
    (h : SecretOK cfg) : SecretOK (applyOption o cfg) := by
  cases o
  case withSharedKey s =>
    rcases withSharedKey_shape s with hs | ⟨k, hk, hs⟩
    · simpa [applyOption, hs] using h
    · exact Or.inr ⟨k, by simp [applyOption, hs], hk⟩
  all_goals
    simpa [applyOption, SecretOK, WithDeletePermanentlyAfter, WithGetAllPageSize,
      WithInstallationID, WithStorageType, WithStorageConnectionString,
      WithStorageCAFile, WithStorageCertSkipVerify, WithStorageCertificate] using h

lemma foldl_secretOK (l : List ServerOptionSpec) :
    ∀ cfg, SecretOK cfg → SecretOK (l.foldl (fun c o => applyOption o c) cfg) := by
  induction l with
  | nil => exact fun cfg h => h
  | cons o t ih => exact fun cfg h => ih (applyOption o cfg) (applyOption_secretOK o cfg h)

/-- C7: for every option sequence, the secret of the resulting configuration
is unset or exactly `DefaultKeySize` bytes long. -/
theorem secret_length_invariant (opts : List ServerOptionSpec) :
    (newServerConfig opts).secret = none ∨
    ∃ k, (newServerConfig opts).secret = some k ∧ k.length = DefaultKeySize :=
  foldl_secretOK opts _ (Or.inl rfl)

/-- C3 fails as stated: `WithDeletePermanentlyAfter` is an unconditional
setter, so a sequence supplying a non-positive duration yields a
configuration whose retention duration is not positive. -/
theorem retention_pageSize_positive_counterexample :
    ¬ ∀ opts : List ServerOptionSpec,
        0 < (newServerConfig opts).deletePermanentlyAfter ∧
        0 < (newServerConfig opts).getAllPageSize := by
  intro h
  exact absurd (h [ServerOptionSpec.withDeletePermanentlyAfter 0]).1 (by decide)

lemma applyOption_positive (o : ServerOptionSpec) (cfg : serverConfig)
    (ho : optionPositive o)
    (h : 0 < cfg.deletePermanentlyAfter ∧ 0 < cfg.getAllPageSize) :
    0 < (applyOption o cfg).deletePermanentlyAfter ∧
    0 < (applyOption o cfg).getAllPageSize := by
  cases o
  case withSharedKey s =>
    rcases withSharedKey_shape s with hs | ⟨k, _, hs⟩ <;> simp_all [applyOption, hs]
  all_goals
    simp_all [applyOption, optionPositive, WithDeletePermanentlyAfter,
      WithGetAllPageSize, WithInstallationID, WithStorageType,
      WithStorageConnectionString, WithStorageCAFile, WithStorageCertSkipVerify,
      WithStorageCertificate]

lemma foldl_positive (l : List ServerOptionSpec) :
    ∀ cfg, (∀ o ∈ l, optionPositive o) →
      0 < cfg.deletePermanentlyAfter ∧ 0 < cfg.getAllPageSize →
      0 < (l.foldl (fun c o => applyOption o c) cfg).deletePermanentlyAfter ∧
      0 < (l.foldl (fun c o => applyOption o c) cfg).getAllPageSize := by
  induction l with
  | nil => exact fun cfg _ h => h
  | cons o t ih =>
      intro cfg ho h
      exact ih (applyOption o cfg)
        (fun o' ho' => ho o' (List.mem_cons_of_mem o ho'))
        (applyOption_positive o cfg (ho o (List.mem_cons_self o t)) h)

/-- C3 amended: for every option sequence whose retention and page-size
setters supply only positive values, the resulting configuration has a
positive retention duration and a positive page size (the defaults are one
hour and 50). -/
theorem retention_pageSize_positive (opts : List ServerOptionSpec)
    (h : ∀ o ∈ opts, optionPositive o) :
    0 < (newServerConfig opts).deletePermanentlyAfter ∧
    0 < (newServerConfig opts).getAllPageSize :=
  foldl_positive opts _ h (by decide)

/-- Witness for the amended C3 at a concrete positive option sequence. -/
theorem retention_pageSize_positive_witness :
    0 < (newServerConfig [ServerOptionSpec.withDeletePermanentlyAfter 5,
          ServerOptionSpec.withGetAllPageSize 7]).deletePermanentlyAfter ∧
    0 < (newServerConfig [ServerOptionSpec.withDeletePermanentlyAfter 5,
          ServerOptionSpec.withGetAllPageSize 7]).getAllPageSize :=
  retention_pageSize_positive
    [ServerOptionSpec.withDeletePermanentlyAfter 5,
      ServerOptionSpec.withGetAllPageSize 7]
    (by intro o ho
        simp only [List.mem_cons, List.not_mem_nil, or_false] at ho
        rcases ho with rfl | rfl <;> norm_num [optionPositive])

end Databroker

namespace Databroker

lemma withSharedKey_comm (s : String) (g : serverConfig → serverConfig)
    (hg : ∀ cfg k, g { cfg with secret := some k } = { g cfg with secret := some k }) :
    ∀ cfg, WithSharedKey s (g cfg) = g (WithSharedKey s cfg) := by
  intro cfg
  rcases withSharedKey_shape s with hs | ⟨k, _, hs⟩
  · rw [hs, hs]
  · rw [hs, hs, hg]

/-- C6: option application is last-write-wins and local.  First conjunct: if
an unconditional setter `o` appears in a sequence with no later setter of the
same field, the resulting configuration agrees on that field with `o` applied
to any configuration (i.e. the field equals the value `o` supplies,
irrespective of earlier options, in particular of an earlier setter of the
same field in the prefix).  Second conjunct: options writing distinct fields
commute.  Third conjunct: each option leaves every field other than its own
unchanged. -/
theorem option_algebra :
    (∀ l1 l2 : List ServerOptionSpec, ∀ o, Unconditional o = true →
      (∀ o' ∈ l2, fieldOf o' ≠ fieldOf o) →
      agreeOn (fieldOf o) (newServerConfig (l1 ++ o :: l2))
        (applyOption o zeroServerConfig) = true) ∧
    (∀ o o' : ServerOptionSpec, ∀ cfg, fieldOf o ≠ fieldOf o' →
      applyOption o (applyOption o' cfg) = applyOption o' (applyOption o cfg)) ∧
    (∀ o : ServerOptionSpec, ∀ cfg f, fieldOf o ≠ f →
      agreeOn f (applyOption o cfg) cfg = true) := by
  refine ⟨?_, ?_, applyOption_frame⟩
  · intro l1 l2 o hu hl2
    have hsplit : newServerConfig (l1 ++ o :: l2)
        = l2.foldl (fun c o => applyOption o c) (applyOption o (newServerConfig l1)) := by
      simp [newServerConfig, List.foldl_append]
    rw [hsplit]
    exact agreeOn_trans _ _ _ _
      (foldl_frame l2 (fieldOf o) (applyOption o (newServerConfig l1)) hl2)
      (setter_writes o hu (newServerConfig l1) zeroServerConfig)
  · intro o o' cfg h
    cases o <;> cases o' <;>
      first
        | exact absurd rfl h
        | rfl
        | (simp only [applyOption]
           exact withSharedKey_comm _ _ (fun _ _ => rfl) _)
        | (simp only [applyOption]
           exact (withSharedKey_comm _ _ (fun _ _ => rfl) _).symm)

/-- Witness for C6 at concrete options: a later storage-type setter wins over
an earlier one and ignores a later setter of a different field; setters of
distinct fields commute; a setter leaves other fields unchanged. -/
theorem option_algebra_witness :
    agreeOn (fieldOf (ServerOptionSpec.withStorageType "postgres"))
      (newServerConfig ([ServerOptionSpec.withStorageType "redis"] ++
        ServerOptionSpec.withStorageType "postgres" ::
          [ServerOptionSpec.withInstallationID "j"]))
      (applyOption (ServerOptionSpec.withStorageType "postgres") zeroServerConfig) = true ∧
    applyOption (ServerOptionSpec.withStorageType "postgres")
        (applyOption (ServerOptionSpec.withInstallationID "i") zeroServerConfig) =
      applyOption (ServerOptionSpec.withInstallationID "i")
        (applyOption (ServerOptionSpec.withStorageType "postgres") zeroServerConfig) ∧
    agreeOn Field.installationID
      (applyOption (ServerOptionSpec.withStorageType "postgres") zeroServerConfig)
      zeroServerConfig = true :=
  ⟨option_algebra.1 [ServerOptionSpec.withStorageType "redis"]
      [ServerOptionSpec.withInstallationID "j"]
      (ServerOptionSpec.withStorageType "postgres") (by decide) (by decide),
    option_algebra.2.1 (ServerOptionSpec.withStorageType "postgres")
      (ServerOptionSpec.withInstallationID "i") zeroServerConfig (by decide),
    option_algebra.2.2 (ServerOptionSpec.withStorageType "postgres")
      zeroServerConfig Field.installationID (by decide)⟩

end Databroker

namespace Metrics

lemma updateInfo_frame (env : Env) (cfg : Config) (mgr : MetricsManager) :
    (updateInfo env cfg mgr).1.addr = mgr.addr ∧
    (updateInfo env cfg mgr).1.basicAuth = mgr.basicAuth ∧
    (updateInfo env cfg mgr).1.installationID = mgr.installationID ∧
    (updateInfo env cfg mgr).1.handler = mgr.handler := by
  unfold updateInfo
  split <;> simp

lemma updateInfo_serviceName (env : Env) (cfg : Config) (mgr : MetricsManager) :
    (updateInfo env cfg mgr).1.serviceName = telemetryServiceName cfg.services := by
  unfold updateInfo
  split
  · next h => exact h.symm
  · rfl

lemma updateServer_serviceName (env : Env) (cfg : Config) (mgr : MetricsManager) :
    (updateServer env cfg mgr).serviceName = mgr.serviceName := by
  unfold updateServer storeTriple
  split
  · rfl
  · split
    · rfl
    · split <;> rfl

lemma updateServer_triple (env : Env) (cfg : Config) (mgr : MetricsManager) :
    (updateServer env cfg mgr).addr = cfg.metricsAddr ∧
    (updateServer env cfg mgr).basicAuth = cfg.metricsBasicAuth ∧
    (updateServer env cfg mgr).installationID = cfg.installationID := by
  unfold updateServer storeTriple
  split
  · next h => exact ⟨h.1.symm, h.2.1.symm, h.2.2.symm⟩
  · split
    · exact ⟨rfl, rfl, rfl⟩
    · split <;> exact ⟨rfl, rfl, rfl⟩

lemma onConfigChange_serviceName (env : Env) (cfg : Config) (mgr : MetricsManager) :
    (OnConfigChange env cfg mgr).1.serviceName = telemetryServiceName cfg.services := by
  show (updateServer env cfg (updateInfo env cfg mgr).1).serviceName = _
  rw [updateServer_serviceName, updateInfo_serviceName]

lemma onConfigChange_triple (env : Env) (cfg : Config) (mgr : MetricsManager) :
    (OnConfigChange env cfg mgr).1.addr = cfg.metricsAddr ∧
    (OnConfigChange env cfg mgr).1.basicAuth = cfg.metricsBasicAuth ∧
    (OnConfigChange env cfg mgr).1.installationID = cfg.installationID :=
  updateServer_triple env cfg (updateInfo env cfg mgr).1

lemma updateServer_inv (env : Env) (cfg : Config) (mgr : MetricsManager)
    (h : mgr.addr = "" → mgr.handler = none) :
    (updateServer env cfg mgr).addr = "" → (updateServer env cfg mgr).handler = none := by
  unfold updateServer storeTriple
  split
  · exact h
  · split
    · exact fun _ => rfl
    · split
      · exact fun _ => rfl
      · next hne _ => exact fun ha => absurd ha hne

lemma onConfigChange_inv (env : Env) (cfg : Config) (mgr : MetricsManager)
    (h : mgr.addr = "" → mgr.handler = none) :
    (OnConfigChange env cfg mgr).1.addr = "" →
      (OnConfigChange env cfg mgr).1.handler = none :=
  updateServer_inv env cfg (updateInfo env cfg mgr).1 fun ha => by
    rw [(updateInfo_frame env cfg mgr).2.2.2]
    exact h ((updateInfo_frame env cfg mgr).1 ▸ ha)

lemma run_inv (l : List (Env × Config)) :
    (run l).addr = "" → (run l).handler = none := by
  have gen : ∀ t : List (Env × Config), ∀ mgr : MetricsManager,
      (mgr.addr = "" → mgr.handler = none) →
      ((t.foldl (fun m ec => (OnConfigChange ec.1 ec.2 m).1) mgr).addr = "" →
       (t.foldl (fun m ec => (OnConfigChange ec.1 ec.2 m).1) mgr).handler = none) := by
    intro t
    induction t with
    | nil => exact fun mgr h => h
    | cons ec s ih => exact fun mgr h => ih _ (onConfigChange_inv ec.1 ec.2 mgr h)
  exact gen l initMgr fun _ => rfl

/-- C1 fails as stated: the "handler unset iff address empty" equivalence
breaks when handler construction fails, which leaves the handler unset while
a non-empty bind address is stored.  One `OnConfigChange` call with a
non-empty address and a failing handler constructor reaches such a state. -/
theorem handler_iff_addr_counterexample :
    ¬ ∀ mgr, Reachable mgr →
        ((mgr.handler = none ↔ mgr.addr = "") ∧
          (mgr.handler = none → ∀ r, ServeHTTP mgr r = HTTPResponse.notFound)) := by
  intro h
  have h1 := (h (run [({ hostname := some "host", promHandlerOK := false },
      { services := "proxy", metricsAddr := "127.0.0.1:9090",
        metricsBasicAuth := "", installationID := "" })]) ⟨_, rfl⟩).1.mp (by decide)
  exact absurd h1 (by decide)

/-- C1 amended: for every reachable state, an empty bind address implies the
handler is unset (the converse can fail after a handler-construction
failure), and whenever the handler is unset `ServeHTTP` responds
not-found. -/
theorem handler_unset_of_addr_empty (mgr : MetricsManager) (h : Reachable mgr) :
    (mgr.addr = "" → mgr.handler = none) ∧
    (mgr.handler = none → ∀ r, ServeHTTP mgr r = HTTPResponse.notFound) := by
  obtain ⟨l, rfl⟩ := h
  refine ⟨run_inv l, fun hh r => ?_⟩
  simp [ServeHTTP, hh]

/-- Witness for the amended C1 at the initial (reachable) state. -/
theorem handler_unset_of_addr_empty_witness :
    (initMgr.addr = "" → initMgr.handler = none) ∧
    (initMgr.handler = none →
      ∀ r, ServeHTTP initMgr r = HTTPResponse.notFound) :=
  handler_unset_of_addr_empty initMgr ⟨[], rfl⟩

end Metrics

namespace Metrics

/-- C4: `OnConfigChange` is idempotent — a second call with a configuration
identical to the one just applied emits no build-info metric and returns the
state (in particular the handler) unchanged; and whenever the configuration's
(addr, basicAuth, installationID) triple equals the stored one, `updateServer`
leaves the whole state (handler, address, basic-auth, installation id)
unchanged. -/
theorem onConfigChange_idempotent (env env' : Env) (cfg : Config) (mgr : MetricsManager) :
    OnConfigChange env' cfg (OnConfigChange env cfg mgr).1 =
      ((OnConfigChange env cfg mgr).1, []) ∧
    (cfg.metricsAddr = mgr.addr → cfg.metricsBasicAuth = mgr.basicAuth →
      cfg.installationID = mgr.installationID →
      updateServer env cfg mgr = mgr) := by
  constructor
  · have hs : telemetryServiceName cfg.services =
        (OnConfigChange env cfg mgr).1.serviceName :=
      (onConfigChange_serviceName env cfg mgr).symm
    have ht := onConfigChange_triple env cfg mgr
    have hinfo : updateInfo env' cfg (OnConfigChange env cfg mgr).1 =
        ((OnConfigChange env cfg mgr).1, []) := by
      unfold updateInfo
      rw [if_pos hs]
    show (updateServer env' cfg (updateInfo env' cfg (OnConfigChange env cfg mgr).1).1,
           (updateInfo env' cfg (OnConfigChange env cfg mgr).1).2) = _
    rw [hinfo]
    have hserv : updateServer env' cfg (OnConfigChange env cfg mgr).1 =
        (OnConfigChange env cfg mgr).1 := by
      unfold updateServer
      rw [if_pos ⟨ht.1.symm, ht.2.1.symm, ht.2.2.symm⟩]
    rw [hserv]
  · intro h1 h2 h3
    unfold updateServer
    rw [if_pos ⟨h1, h2, h3⟩]

/-- Witness for C4 at a concrete configuration applied twice from the initial
state (with matching triple for the second conjunct). -/
theorem onConfigChange_idempotent_witness :
    OnConfigChange { hostname := some "host2", promHandlerOK := true }
        { services := "proxy", metricsAddr := "127.0.0.1:9090",
          metricsBasicAuth := "creds", installationID := "id1" }
        (OnConfigChange { hostname := some "host1", promHandlerOK := true }
          { services := "proxy", metricsAddr := "127.0.0.1:9090",
            metricsBasicAuth := "creds", installationID := "id1" } initMgr).1 =
      ((OnConfigChange { hostname := some "host1", promHandlerOK := true }
          { services := "proxy", metricsAddr := "127.0.0.1:9090",
            metricsBasicAuth := "creds", installationID := "id1" } initMgr).1, []) ∧
    updateServer { hostname := some "host1", promHandlerOK := true }
        { services := "", metricsAddr := "", metricsBasicAuth := "",
          installationID := "" } initMgr = initMgr :=
  ⟨(onConfigChange_idempotent { hostname := some "host1", promHandlerOK := true }
      { hostname := some "host2", promHandlerOK := true }
      { services := "proxy", metricsAddr := "127.0.0.1:9090",
        metricsBasicAuth := "creds", installationID := "id1" } initMgr).1,
    (onConfigChange_idempotent { hostname := some "host1", promHandlerOK := true }
      { hostname := some "host1", promHandlerOK := true }
      { services := "", metricsAddr := "", metricsBasicAuth := "",
        installationID := "" } initMgr).2 rfl rfl rfl⟩

/-- C8: when the derived service name differs from the stored one and the
hostname lookup fails, `updateInfo` still completes: it substitutes the
sentinel `__unknown__` into the emitted build-info metric and stores the new
service name. -/
theorem updateInfo_hostname_failure (env : Env) (cfg : Config) (mgr : MetricsManager)
    (hs : telemetryServiceName cfg.services ≠ mgr.serviceName)
    (hh : env.hostname = none) :
    updateInfo env cfg mgr =
      ({ mgr with serviceName := telemetryServiceName cfg.services },
        [{ serviceName := telemetryServiceName cfg.services,
           hostname := "__unknown__" }]) := by
  unfold updateInfo hostnameOrUnknown
  rw [if_neg hs, hh]

/-- Witness for C8: a failed hostname lookup during the first identity update
from the initial state. -/
theorem updateInfo_hostname_failure_witness :
    telemetryServiceName "proxy" ≠ initMgr.serviceName ∧
    updateInfo { hostname := none, promHandlerOK := true }
        { services := "proxy", metricsAddr := "", metricsBasicAuth := "",
          installationID := "" } initMgr =
      ({ initMgr with serviceName := telemetryServiceName "proxy" },
        [{ serviceName := telemetryServiceName "proxy",
           hostname := "__unknown__" }]) :=
  ⟨by decide,
    updateInfo_hostname_failure { hostname := none, promHandlerOK := true }
      { services := "proxy", metricsAddr := "", metricsBasicAuth := "",
        installationID := "" } initMgr (by decide) rfl⟩

/-- C9: `Close` returns nil after every sequence of `OnConfigChange` calls
(`ServeHTTP` reads but never writes the state). -/
theorem close_always_nil (l : List (Env × Config)) : Close (run l) = none := rfl

/-- C10: the two sub-updates of `OnConfigChange` touch disjoint state —
`updateInfo` leaves the bind address, basic-auth string, installation id and
handler unchanged, and `updateServer` leaves the service name unchanged. -/
theorem update_disjoint_frames (env : Env) (cfg : Config) (mgr : MetricsManager) :
    (updateInfo env cfg mgr).1.addr = mgr.addr ∧
    (updateInfo env cfg mgr).1.basicAuth = mgr.basicAuth ∧
    (updateInfo env cfg mgr).1.installationID = mgr.installationID ∧
    (updateInfo env cfg mgr).1.handler = mgr.handler ∧
    (updateServer env cfg mgr).serviceName = mgr.serviceName :=
  ⟨(updateInfo_frame env cfg mgr).1, (updateInfo_frame env cfg mgr).2.1,
    (updateInfo_frame env cfg mgr).2.2.1, (updateInfo_frame env cfg mgr).2.2.2,
    updateServer_serviceName env cfg mgr⟩

end Metrics
